import Mathlib

/-
Verification of the zendesk-chatgpt-assistant-backend gateway.

The repository has three variants of the Express server:
  * src/unnamed/part_000 — messages-mode endpoints /generate and /chat-stream (SSE),
    origin gate `originAllowed` over a static allow list plus two host suffixes;
  * src/server.js — prompt-mode /generate, CORS callback with trailing-slash
    normalization and the ".apps.zdusercontent.com" host suffix;
  * src/unnamed/part_001 — prompt-mode /generate, CORS callback with no
    normalization.

The embedding below translates the request-handling logic of those files into
executable Lean definitions: JavaScript values are modelled by `JSValue` with
JS truthiness, URL parsing is modelled for origin-shaped strings
(scheme://host[:port][/path]), and the streaming handler is modelled as a
function from the list of upstream chunks it consumed plus how the upstream
ended to the frames written and the final timer/connection state.
-/

namespace ZendeskGateway

/-- Model of a JavaScript value as far as the request bodies of this server
need: primitives, arrays and string-keyed objects. -/
inductive JSValue where
  | undefined
  | null
  | bool (b : Bool)
  | num (n : Int)
  | str (s : String)
  | arr (xs : List JSValue)
  | obj (fields : List (String × JSValue))

/-- JavaScript truthiness for the modelled values: undefined, null, false, 0
and the empty string are falsy; every array and object is truthy. -/
def truthy : JSValue → Bool
  | .undefined => false
  | .null => false
  | .bool b => b
  | .num n => n != 0
  | .str s => s != ""
  | .arr _ => true
  | .obj _ => true

/-- Property access `v[name]`: an object yields the first binding of the key
(or undefined when absent); any non-object yields undefined. -/
def getField : JSValue → String → JSValue
  | .obj fields, name =>
      match fields.lookup name with
      | some v => v
      | none => .undefined
  | _, _ => .undefined

/-- Model of `Array.isArray`. -/
def isArray : JSValue → Bool
  | .arr _ => true
  | _ => false

/-- The `req.body || \x7b\x7d` default applied by both handlers. -/
def effBody (body : JSValue) : JSValue :=
  if truthy body then body else .obj []

/-- Model of `String.prototype.endsWith`. -/
def jsEndsWith (s suffixStr : String) : Bool :=
  suffixStr.data.isSuffixOf s.data

/-- Model of `String.prototype.trim` (drop leading and trailing whitespace). -/
def jsTrim (s : String) : String :=
  ⟨((s.data.dropWhile Char.isWhitespace).reverse.dropWhile Char.isWhitespace).reverse⟩

/-- Model of `o.replace(/\\/$/, "")` from src/server.js line 25: remove one
trailing slash when present. -/
def normalize (o : String) : String :=
  if o.data.getLast? = some '/' then ⟨o.data.dropLast⟩ else o

/-- Split a character list at the first occurrence of "://", returning the
part before and the part after. -/
def schemeSplit : List Char → Option (List Char × List Char)
  | [] => none
  | ':' :: '/' :: '/' :: rest => some ([], rest)
  | c :: rest =>
      match schemeSplit rest with
      | some (pre, post) => some (c :: pre, post)
      | none => none

/-- Model of `new URL(origin).hostname` restricted to origin-shaped inputs
`scheme://host[:port][/path]`: `none` models the URL constructor throwing. -/
def hostnameOf (origin : String) : Option String :=
  match schemeSplit origin.data with
  | none => none
  | some (scheme, rest) =>
      if scheme ≠ [] ∧ scheme.all Char.isAlpha then
        let hostport := rest.takeWhile (fun c => !(c == '/') && !(c == '?') && !(c == '#'))
        let hostname := hostport.takeWhile (fun c => !(c == ':'))
        if hostname = [] then none else some ⟨hostname⟩
      else none

/-- Model of `new URL(origin).host` (hostname plus port) under the same
restriction as `hostnameOf`. -/
def hostPortOf (origin : String) : Option String :=
  match schemeSplit origin.data with
  | none => none
  | some (scheme, rest) =>
      if scheme ≠ [] ∧ scheme.all Char.isAlpha then
        let hostport := rest.takeWhile (fun c => !(c == '/') && !(c == '?') && !(c == '#'))
        if hostport = [] then none else some ⟨hostport⟩
      else none

/-- The static allow list of src/unnamed/part_000 lines 14-17. -/
def STATIC_ALLOW : List String :=
  ["http://localhost:3000", "http://127.0.0.1:3000"]

/-- Origin gate of src/unnamed/part_000 lines 19-32, generalized over the rule
list the function reads: empty origin is allowed; otherwise parse the origin
as a URL (the catch branch rejects on failure) and allow when the raw origin
is in the list or the hostname ends with ".zendesk.com" or
".zdusercontent.com". -/
def originAllowedWith (rules : List String) (origin : String) : Bool :=
  if origin = "" then true
  else
    match hostnameOf origin with
    | some h =>
        rules.contains origin || jsEndsWith h ".zendesk.com" ||
          jsEndsWith h ".zdusercontent.com"
    | none => false

/-- The `originAllowed` function of src/unnamed/part_000, reading the constant
STATIC_ALLOW list. -/
def originAllowed (origin : String) : Bool :=
  originAllowedWith STATIC_ALLOW origin

/-- Predicate written from the words of the spec (section 4.1 and section 8):
allowed iff the origin is empty, or the NORMALIZED origin equals a configured
exact rule, or the host ends with a configured suffix. Used to compare the
spec wording with `originAllowed`, which performs no normalization. -/
def isAllowedSpec (origin : String) : Bool :=
  origin = "" || STATIC_ALLOW.contains (normalize origin) ||
    (match hostnameOf origin with
     | some h => jsEndsWith h ".zendesk.com" || jsEndsWith h ".zdusercontent.com"
     | none => false)

/-- Split a character list on commas, modelling `String.prototype.split(",")`
(so the empty input yields one empty group). -/
def splitOnComma : List Char → List (List Char)
  | [] => [[]]
  | ',' :: rest => [] :: splitOnComma rest
  | c :: rest =>
      match splitOnComma rest with
      | [] => [[c]]
      | g :: gs => (c :: g) :: gs

/-- `listFromEnv` of src/server.js lines 27-31: split on commas, trim, strip a
trailing slash, drop empty entries. -/
def listFromEnv (val : String) : List String :=
  (((splitOnComma val.data).map (fun cs => normalize (jsTrim ⟨cs⟩))).filter (fun s => s ≠ ""))

/-- ALLOWED_ORIGINS of src/server.js lines 33-37, as a function of the two
environment variables. -/
def allowedOrigins (zendeskOrigins zendeskOrigin : String) : List String :=
  listFromEnv zendeskOrigins ++ listFromEnv zendeskOrigin ++ ["http://localhost:3000"]

/-- CORS origin callback of src/server.js lines 41-49: normalize the origin,
extract its host (empty string when parsing fails or the origin is empty),
and allow when the origin is empty, the normalized origin is in the list, or
the host ends with ".apps.zdusercontent.com". Returns the boolean decision
passed to the cors callback. -/
def corsDecision (allowed : List String) (origin : String) : Bool :=
  let o := normalize origin
  let host := if o = "" then "" else
    match hostPortOf o with
    | some h => h
    | none => ""
  o = "" || allowed.contains o || jsEndsWith host ".apps.zdusercontent.com"

/-- `listFromEnv` of src/unnamed/part_001 lines 29-33: split on commas, trim,
drop empty entries — no normalization in this variant. -/
def listFromEnvPart001 (val : String) : List String :=
  ((splitOnComma val.data).map (fun cs => jsTrim ⟨cs⟩)).filter (fun s => s ≠ "")

/-- ALLOWED_ORIGINS of src/unnamed/part_001 lines 35-39. -/
def allowedOriginsPart001 (zendeskOrigins zendeskOrigin : String) : List String :=
  listFromEnvPart001 zendeskOrigins ++ listFromEnvPart001 zendeskOrigin ++
    ["http://localhost:3000"]

/-- CORS origin callback of src/unnamed/part_001 lines 43-47: allow when the
origin is absent or exactly (no normalization) in the allow list. -/
def corsDecisionPart001 (allowed : List String) (origin : String) : Bool :=
  origin = "" || allowed.contains origin

/-- A chat message as sent to the upstream provider. -/
structure Message where
  role : String
  content : String
deriving DecidableEq

/-- The fixed system preamble of src/server.js lines 94-98 (also
src/unnamed/part_001 lines 80-84). -/
def personaPreamble : String :=
  "You are a helpful Tier 3 support assistant for Chaos (V-Ray, Phoenix, Vantage, Cloud)."

/-- The messages-mode validation check shared by the /generate and
/chat-stream handlers of src/unnamed/part_000 (lines 62 and 86):
`!messages || !Array.isArray(messages)` rejects; this returns true when the
request passes. -/
def messagesOk (body : JSValue) : Bool :=
  let m := getField (effBody body) "messages"
  truthy m && isArray m

/-- Outcome of the messages-mode /generate handler up to the upstream call. -/
inductive GenOutcome where
  | validationError (status : Nat) (message : String)
  | upstreamCall (messages : JSValue)

/-- The validation phase of the /generate handler of src/unnamed/part_000
lines 59-71: destructure the (defaulted) body, reject with
400 "messages array is required" unless `messages` is a truthy array,
otherwise call the upstream with that array. -/
def generateMessagesMode (body : JSValue) : GenOutcome :=
  let m := getField (effBody body) "messages"
  if truthy m && isArray m then .upstreamCall m
  else .validationError 400 "messages array is required"

/-- Role check written from the spec words for claim C6: a non-empty role
drawn from the fixed enum \x7bsystem, user, assistant\x7d. -/
def validRole (r : String) : Bool :=
  r ≠ "" && (r = "system" || r = "user" || r = "assistant")

/-- Message-shape check written from the spec words for claim C6: the element
has a non-empty enum role and a string content. -/
def isValidMessage (v : JSValue) : Bool :=
  match getField v "role", getField v "content" with
  | .str r, .str _ => validRole r
  | _, _ => false

/-- Body check written from the spec words for claim C6: the body contains a
non-empty ordered list of well-shaped Messages. -/
def specMessagesValid (body : JSValue) : Bool :=
  match getField body "messages" with
  | .arr xs => !xs.isEmpty && xs.all isValidMessage
  | _ => false

/-- Outcome of the prompt-mode /generate handler up to the upstream call. -/
inductive PromptOutcome where
  | configError (status : Nat) (message : String)
  | validationError (status : Nat) (message : String)
  | upstreamCall (messages : List Message)
deriving DecidableEq

/-- The prompt extraction of src/server.js line 85-86:
`(req.body && (req.body.prompt ?? req.body["prompt"])) || ""`. The inner
`??` reads the same property twice, so it reduces to the property value; the
`&&` keeps a falsy body, and the `|| ""` replaces any falsy result with the
empty string. -/
def extractPrompt (body : JSValue) : JSValue :=
  if truthy body then
    let p := getField body "prompt"
    if truthy p then p else .str ""
  else .str ""

/-- The /generate handler of src/server.js lines 80-104 up to the upstream
call: 500 when the API key is missing, then
`if (!prompt || typeof prompt !== "string")` rejects with
400 "Missing \x27prompt\x27 string in body", otherwise the upstream is called with
the synthesized [system persona, user prompt] message pair. After the
`|| ""` default the extracted prompt is either the empty string or truthy,
so the check rejects exactly the non-strings and the empty string. -/
def generatePromptMode (hasKey : Bool) (body : JSValue) : PromptOutcome :=
  if !hasKey then .configError 500 "Missing OPENAI_API_KEY"
  else
    match extractPrompt body with
    | .str s =>
        if s = "" then .validationError 400 "Missing \x27prompt\x27 string in body"
        else .upstreamCall [⟨"system", personaPreamble⟩, ⟨"user", s⟩]
    | _ => .validationError 400 "Missing \x27prompt\x27 string in body"

/-- The message part of one upstream completion choice. -/
structure ChoiceMessage where
  content : Option String
deriving DecidableEq

/-- One upstream completion choice. -/
structure Choice where
  message : ChoiceMessage
deriving DecidableEq

/-- An upstream (non-streaming) completion result. -/
structure Completion where
  choices : List Choice
deriving DecidableEq

/-- The fixed placeholder reply of both /generate variants. -/
def placeholderReply : String := "(No content returned from model)"

/-- Reply extraction of src/unnamed/part_000 line 73:
`completion?.choices?.[0]?.message?.content ?? "(No content returned from model)"` —
the `??` substitutes the placeholder only when the optional chain yields
null or undefined, not when the content is the empty string. -/
def replyPart000 (completion : Option Completion) : String :=
  match completion with
  | none => placeholderReply
  | some comp =>
      match comp.choices.head? with
      | none => placeholderReply
      | some choice =>
          match choice.message.content with
          | none => placeholderReply
          | some s => s

/-- Reply extraction of src/server.js lines 105-107:
`completion.choices?.[0]?.message?.content?.trim() || "(No content returned from model)"` —
the `||` substitutes the placeholder for any falsy result, so absent, empty
and whitespace-only contents all yield the placeholder. -/
def replyServerJs (completion : Completion) : String :=
  match completion.choices.head? with
  | none => placeholderReply
  | some choice =>
      match choice.message.content with
      | none => placeholderReply
      | some s => if jsTrim s = "" then placeholderReply else jsTrim s

/-- The first choice content of a completion, for stating claims about the
reply extraction. -/
def firstContent (completion : Completion) : Option String :=
  completion.choices.head?.bind (fun choice => choice.message.content)

/-- The delta part of one streaming chunk choice. -/
structure Delta where
  content : Option String
deriving DecidableEq

/-- One choice of a streaming chunk. -/
structure DeltaChoice where
  delta : Delta
deriving DecidableEq

/-- One chunk of the upstream streaming response. -/
structure Chunk where
  choices : List DeltaChoice
deriving DecidableEq

/-- The delta extraction of src/unnamed/part_000 line 115:
`chunk.choices?.[0]?.delta?.content`. -/
def chunkDelta (chunk : Chunk) : Option String :=
  match chunk.choices.head? with
  | some choice => choice.delta.content
  | none => none

/-- A chunk carrying a single delta with the given content, the shape the
upstream produces for ordinary text tokens. -/
def mkDeltaChunk (d : String) : Chunk := ⟨[⟨⟨some d⟩⟩]⟩

/-- One SSE frame written by the /chat-stream handler. -/
inductive Frame where
  | data (delta : String)
  | keepAlive
  | error (message : String)
  | done
deriving DecidableEq

/-- Minimal model of JSON string escaping as performed by `JSON.stringify`
on the characters this file reasons about. -/
def jsonEscapeChar (c : Char) : String :=
  if c == '"' then "\\\""
  else if c == '\\' then "\\\\"
  else if c == '\n' then "\\n"
  else if c == '\r' then "\\r"
  else if c == '\t' then "\\t"
  else String.singleton c

/-- JSON serialization of a string literal (model of `JSON.stringify` on
strings). -/
def jsonString (s : String) : String :=
  "\"" ++ String.join (s.data.map jsonEscapeChar) ++ "\""

/-- The wire text of each frame, per src/unnamed/part_000 lines 102, 118,
123 and 132. -/
def frameText : Frame → String
  | .data d => "data: \x7b\"delta\":" ++ jsonString d ++ "\x7d\n\n"
  | .keepAlive => ": keep-alive\n\n"
  | .error m => "event: error\ndata: \x7b\"message\":" ++ jsonString m ++ "\x7d\n\n"
  | .done => "data: [DONE]\n\n"

/-- How the upstream streaming iteration ends: the sequence completes
normally, or the next await raises an error whose `.message` is the given
string when present. -/
inductive StreamEnd where
  | normal
  | failure (message : Option String)
deriving DecidableEq

/-- Final state of one /chat-stream handler execution: the data/error/done
frames written in order, whether the `setInterval` heartbeat registered at
line 101 is still registered when the handler finishes, and whether
`res.end()` was called. Heartbeat keep-alive frames are written by the timer
on a 15-second wall clock and are therefore tracked only through
`heartbeatActive`, not interleaved into `frames`. -/
structure StreamResult where
  frames : List Frame
  heartbeatActive : Bool
  connectionEnded : Bool
deriving DecidableEq

/-- The frames written by the delta loop of src/unnamed/part_000 lines
114-120: for each chunk, extract the delta and write a data frame only when
the delta is truthy (a non-empty string). -/
def dataFramesFor : List Chunk → List Frame
  | [] => []
  | chunk :: rest =>
      (match chunkDelta chunk with
       | some d => if d ≠ "" then [Frame.data d] else []
       | none => []) ++ dataFramesFor rest

/-- The /chat-stream handler body of src/unnamed/part_000 lines 93-139 after
validation, as a function of the chunks the loop consumed and how the
upstream ended. On normal completion (lines 122-125) the handler writes the
data frames, then "data: [DONE]", clears the heartbeat interval and ends the
response. On a failure (lines 126-138) the catch branch runs `clearTimeout()`
WITH NO ARGUMENT — a no-op that leaves the line-101 interval registered —
then writes one error frame carrying `err.message` (or the fallback
"OpenAI stream error") and ends the response. -/
def chatStreamBody (chunks : List Chunk) (ending : StreamEnd) : StreamResult :=
  match ending with
  | .normal =>
      { frames := dataFramesFor chunks ++ [Frame.done]
        heartbeatActive := false
        connectionEnded := true }
  | .failure message =>
      { frames := dataFramesFor chunks ++ [Frame.error (message.getD "OpenAI stream error")]
        heartbeatActive := true
        connectionEnded := true }

/-- Outcome of one /chat-stream request: a pre-header 400 JSON error, or an
SSE session with its final state. -/
inductive ChatStreamOutcome where
  | badRequest (status : Nat) (message : String)
  | sse (result : StreamResult)

/-- The full /chat-stream handler of src/unnamed/part_000 lines 83-140:
validate the messages array before any header is written (lines 86-91),
otherwise run the SSE session. -/
def chatStreamHandler (body : JSValue) (chunks : List Chunk) (ending : StreamEnd) :
    ChatStreamOutcome :=
  if messagesOk body then .sse (chatStreamBody chunks ending)
  else .badRequest 400 "messages array is required"

/-- The delta payloads of the data frames of a frame list, in order. -/
def dataPayloads : List Frame → List String
  | [] => []
  | .data d :: rest => d :: dataPayloads rest
  | _ :: rest => dataPayloads rest

/-- Number of done frames in a frame list. -/
def countDone : List Frame → Nat
  | [] => 0
  | .done :: rest => 1 + countDone rest
  | _ :: rest => countDone rest

/-- Number of error frames in a frame list. -/
def countError : List Frame → Nat
  | [] => 0
  | .error _ :: rest => 1 + countError rest
  | _ :: rest => countError rest

/-- A terminal marker frame: done or error. -/
def isTerminalFrame : Frame → Bool
  | .done => true
  | .error _ => true
  | _ => false

/-- State of the origin gate as a callable component: the rule list the
function reads. The source stores it in the module constant STATIC_ALLOW. -/
structure OriginGateState where
  rules : List String
deriving DecidableEq

/-- One call of the origin gate with explicit state threading: the function
only reads the rule list and returns the state unchanged, matching the
source, whose function body never assigns to STATIC_ALLOW or any other
variable outside its scope. -/
def isAllowedCall (st : OriginGateState) (origin : String) : Bool × OriginGateState :=
  (originAllowedWith st.rules origin, st)

/-- Concatenation of a list of strings in order, modelling how a client
reassembles the streamed deltas. -/
def concatAll : List String → String
  | [] => ""
  | s :: rest => s ++ concatAll rest

/- ===== Helper lemmas ===== -/

theorem normalize_no_slash (s : String) (h : ¬ s.data.getLast? = some '/') :
    normalize s = s := by
  unfold normalize; exact if_neg h

theorem empty_append_str (s : String) : "" ++ s = s := by
  cases s; rfl

theorem concatAll_filter_ne_empty (l : List String) :
    concatAll (l.filter (fun d => d ≠ "")) = concatAll l := by
  induction l with
  | nil => rfl
  | cons s rest ih =>
    simp only [decide_not] at ih
    by_cases hs : s = "" <;>
      simp [List.filter_cons, hs, concatAll, ih, empty_append_str]

theorem truthy_str_of_ne (s : String) (hs : s ≠ "") : truthy (.str s) = true := by
  simp [truthy, hs]

theorem extractPrompt_eq_str (body : JSValue) (s : String) (hs : s ≠ "") :
    extractPrompt body = .str s ↔ getField body "prompt" = .str s := by
  unfold extractPrompt
  by_cases hb : truthy body = true
  · rw [if_pos hb]
    by_cases hp : truthy (getField body "prompt") = true
    · rw [if_pos hp]
    · rw [if_neg hp]
      constructor
      · intro h
        injection h with h'
        exact absurd h'.symm hs
      · intro h
        rw [h] at hp
        exact absurd (truthy_str_of_ne s hs) hp
  · rw [if_neg hb]
    constructor
    · intro h
      injection h with h'
      exact absurd h'.symm hs
    · intro h
      exfalso
      cases body with
      | obj fields => exact hb rfl
      | undefined => simp [getField] at h
      | null => simp [getField] at h
      | bool b => simp [getField] at h
      | num n => simp [getField] at h
      | str t => simp [getField] at h
      | arr xs => simp [getField] at h

theorem generatePromptMode_true (body : JSValue) :
    generatePromptMode true body =
      match extractPrompt body with
      | .str s =>
          if s = "" then .validationError 400 "Missing \x27prompt\x27 string in body"
          else .upstreamCall [⟨"system", personaPreamble⟩, ⟨"user", s⟩]
      | _ => .validationError 400 "Missing \x27prompt\x27 string in body" := rfl

theorem chunkDelta_mkDeltaChunk (d : String) : chunkDelta (mkDeltaChunk d) = some d := rfl

theorem dataFramesFor_map_of_nonempty (deltas : List String)
    (h : ∀ d ∈ deltas, d ≠ "") :
    dataFramesFor (deltas.map mkDeltaChunk) = deltas.map Frame.data := by
  induction deltas with
  | nil => rfl
  | cons d ds ih =>
    have hd : d ≠ "" := h d (List.mem_cons_self d ds)
    have hds : ∀ x ∈ ds, x ≠ "" := fun x hx => h x (List.mem_cons_of_mem d hx)
    simp [dataFramesFor, chunkDelta_mkDeltaChunk, hd, ih hds]

theorem countDone_append (a b : List Frame) :
    countDone (a ++ b) = countDone a + countDone b := by
  induction a with
  | nil => simp [countDone]
  | cons f rest ih => cases f <;> simp [countDone, ih, Nat.add_assoc]

theorem countError_append (a b : List Frame) :
    countError (a ++ b) = countError a + countError b := by
  induction a with
  | nil => simp [countError]
  | cons f rest ih => cases f <;> simp [countError, ih, Nat.add_assoc]

theorem countDone_map_data (ds : List String) : countDone (ds.map Frame.data) = 0 := by
  induction ds with
  | nil => rfl
  | cons d rest ih => simp [countDone, ih]

theorem countError_map_data (ds : List String) : countError (ds.map Frame.data) = 0 := by
  induction ds with
  | nil => rfl
  | cons d rest ih => simp [countError, ih]

theorem countDone_dataFramesFor (chunks : List Chunk) :
    countDone (dataFramesFor chunks) = 0 := by
  induction chunks with
  | nil => rfl
  | cons c rest ih =>
    simp only [dataFramesFor, countDone_append, ih]
    cases hc : chunkDelta c with
    | none => simp [countDone]
    | some d => by_cases hd : d = "" <;> simp [hd, countDone]

theorem countError_dataFramesFor (chunks : List Chunk) :
    countError (dataFramesFor chunks) = 0 := by
  induction chunks with
  | nil => rfl
  | cons c rest ih =>
    simp only [dataFramesFor, countError_append, ih]
    cases hc : chunkDelta c with
    | none => simp [countError]
    | some d => by_cases hd : d = "" <;> simp [hd, countError]

theorem dataPayloads_append (a b : List Frame) :
    dataPayloads (a ++ b) = dataPayloads a ++ dataPayloads b := by
  induction a with
  | nil => simp [dataPayloads]
  | cons f rest ih => cases f <;> simp [dataPayloads, ih]

theorem dataPayloads_map_data (ds : List String) :
    dataPayloads (ds.map Frame.data) = ds := by
  induction ds with
  | nil => rfl
  | cons d rest ih => simp [dataPayloads, ih]

theorem dataPayloads_dataFramesFor (chunks : List Chunk) :
    dataPayloads (dataFramesFor chunks) =
      (chunks.filterMap chunkDelta).filter (fun d => d ≠ "") := by
  induction chunks with
  | nil => rfl
  | cons c rest ih =>
    simp only [dataFramesFor, dataPayloads_append, List.filterMap_cons]
    cases hc : chunkDelta c with
    | none => simpa using ih
    | some d =>
      by_cases hd : d = "" <;>
        simp [hd, dataPayloads, List.filter_cons, ih]

/- ===== Claim theorems ===== -/

/-- C1: the claim says that on every exit path of the /chat-stream handler the
heartbeat interval timer is cancelled before the handler finishes. The code
violates this: the catch branch of src/unnamed/part_000 line 127 calls
`clearTimeout()` with no argument instead of `clearInterval(heartbeat)`, a
no-op, so after a mid-stream failure the handler finishes with the interval
still registered. This theorem exhibits the failing execution (one delta
"Hel", then an upstream error "boom") and contrasts it with the normal exit
path, where line 124 does clear the interval. -/
theorem c1_heartbeat_survives_failure :
    (chatStreamBody [mkDeltaChunk "Hel"] (.failure (some "boom"))).heartbeatActive = true ∧
    (chatStreamBody [mkDeltaChunk "Hel", mkDeltaChunk "lo"] .normal).heartbeatActive = false :=
  ⟨rfl, rfl⟩

/-- C9: the origin gate is pure and deterministic given the configured rule
set: one call returns the state (the rule list) unchanged, a second call on
the returned state yields the same result as the first, and the result is a
function of the rule list and the origin alone. -/
theorem c9_isAllowed_pure (st : OriginGateState) (origin : String) :
    (isAllowedCall st origin).2 = st ∧
    (isAllowedCall (isAllowedCall st origin).2 origin).1 = (isAllowedCall st origin).1 ∧
    (isAllowedCall st origin).1 = originAllowedWith st.rules origin :=
  ⟨rfl, rfl, rfl⟩

/-- C4 counterexample: the claim says `originAllowed` accepts exactly the
empty origin, origins whose NORMALIZED form equals an exact rule, and origins
whose host matches a configured suffix. The origin "http://localhost:3000/"
normalizes to the exact rule "http://localhost:3000" — the spec-worded
predicate accepts it — but `originAllowed` of src/unnamed/part_000 compares
the raw origin with no normalization and rejects it. -/
theorem c4_counterexample :
    originAllowed "http://localhost:3000/" = false ∧
    isAllowedSpec "http://localhost:3000/" = true :=
  ⟨by decide, by decide⟩

/-- C4 amended: `originAllowed` returns true exactly when the origin is
empty, or the RAW (un-normalized) origin exactly equals a configured exact
rule, or the origin parses as a URL whose hostname ends with ".zendesk.com"
or ".zdusercontent.com"; every other origin (including unparseable ones) is
rejected. -/
theorem c4_origin_gate_characterization (o : String) :
    originAllowed o = true ↔
      (o = "" ∨ o ∈ STATIC_ALLOW ∨
        ∃ h, hostnameOf o = some h ∧
          (jsEndsWith h ".zendesk.com" = true ∨ jsEndsWith h ".zdusercontent.com" = true)) := by
  unfold originAllowed originAllowedWith
  by_cases h0 : o = ""
  · simp [h0]
  · rw [if_neg h0]
    cases hh : hostnameOf o with
    | none =>
      constructor
      · intro hc
        exact absurd hc (by simp)
      · rintro (rfl | hmem | ⟨h, hsome, _⟩)
        · exact absurd rfl h0
        · have hmem' : o = "http://localhost:3000" ∨ o = "http://127.0.0.1:3000" := by
            simpa [STATIC_ALLOW] using hmem
          rcases hmem' with rfl | rfl
          · exact absurd hh (by decide)
          · exact absurd hh (by decide)
        · cases hsome
    | some h =>
      simp only [Bool.or_eq_true, Option.some.injEq]
      constructor
      · intro hc
        rcases hc with (hmem | hz) | hz
        · exact Or.inr (Or.inl (List.elem_iff.mp hmem))
        · exact Or.inr (Or.inr ⟨h, rfl, Or.inl hz⟩)
        · exact Or.inr (Or.inr ⟨h, rfl, Or.inr hz⟩)
      · rintro (rfl | hmem | ⟨h', he, hsfx⟩)
        · exact absurd rfl h0
        · exact Or.inl (Or.inl (List.elem_iff.mpr hmem))
        · subst he
          rcases hsfx with hz | hz
          · exact Or.inl (Or.inr hz)
          · exact Or.inr hz

/-- C5 counterexample: the claim says the gate decision is invariant under
removing a single trailing slash for EVERY origin string. With no extra env
entries the allow list is ["http://localhost:3000"]. For the src/server.js
gate, the origin "http://localhost:3000//" (normalized once, to
"http://localhost:3000/", before comparison) is rejected, while the same
origin with a single trailing slash removed, "http://localhost:3000/", is
accepted. The src/unnamed/part_001 gate performs no normalization at all, so
already "http://localhost:3000/" versus "http://localhost:3000" decides
differently there. -/
theorem c5_counterexample :
    normalize "http://localhost:3000//" = "http://localhost:3000/" ∧
    corsDecision (allowedOrigins "" "") "http://localhost:3000//" = false ∧
    corsDecision (allowedOrigins "" "") "http://localhost:3000/" = true ∧
    corsDecisionPart001 (allowedOriginsPart001 "" "") "http://localhost:3000/" = false ∧
    corsDecisionPart001 (allowedOriginsPart001 "" "") "http://localhost:3000" = true :=
  ⟨by decide, by decide, by decide, by decide, by decide⟩

/-- C5 amended: for the src/server.js gate (the variant that normalizes by
stripping a trailing slash), the decision for an origin equals the decision
for the origin with a single trailing slash removed, for every origin whose
normalized form carries no further trailing slash — that is, for origins
ending in at most one slash. Origins ending in two slashes (see the
counterexample) and the no-normalization part_001 variant are not covered. -/
theorem c5_slash_invariance (allowed : List String) (o : String)
    (h : ¬ (normalize o).data.getLast? = some '/') :
    corsDecision allowed o = corsDecision allowed (normalize o) := by
  unfold corsDecision
  rw [normalize_no_slash (normalize o) h]

/-- C5 witness: the invariance theorem applied at the concrete origin
"http://localhost:3000/", whose normalized form has no trailing slash. -/
theorem c5_slash_invariance_witness :
    corsDecision ["http://localhost:3000"] "http://localhost:3000/" =
      corsDecision ["http://localhost:3000"] (normalize "http://localhost:3000/") :=
  c5_slash_invariance ["http://localhost:3000"] "http://localhost:3000/" (by decide)

/-- C6 counterexample: the claim says every body that lacks a non-empty list
of well-shaped Messages fails validation and never reaches the upstream. The
body with `messages: []` does not contain a non-empty list of Messages, yet
the handler of src/unnamed/part_000 only checks
`!messages || !Array.isArray(messages)`, so the empty array passes and the
upstream IS invoked with it. Element shape is not checked either. -/
theorem c6_counterexample :
    specMessagesValid (.obj [("messages", .arr [])]) = false ∧
    generateMessagesMode (.obj [("messages", .arr [])]) = .upstreamCall (.arr []) :=
  ⟨rfl, rfl⟩

/-- C6 amended: validation of the messages-mode handlers fails with the
400-class error "messages array is required" exactly when the `messages`
field of the defaulted body is not an array (missing, or any non-array
value); the contents of the array — emptiness, roles, element shape — are
not checked. In particular the empty body rejects on both endpoints and the
upstream is never invoked for it: the /generate handler returns the
validation error and the /chat-stream handler returns the pre-header 400
without opening an SSE session. -/
theorem c6_messages_validation :
    (∀ body : JSValue,
        generateMessagesMode body = .validationError 400 "messages array is required" ↔
          isArray (getField (effBody body) "messages") = false) ∧
    generateMessagesMode (.obj []) = .validationError 400 "messages array is required" ∧
    messagesOk (.obj []) = false ∧
    (∀ (chunks : List Chunk) (ending : StreamEnd),
        chatStreamHandler (.obj []) chunks ending =
          .badRequest 400 "messages array is required") := by
  refine ⟨fun body => ?_, rfl, rfl, fun chunks ending => rfl⟩
  unfold generateMessagesMode
  cases hm : getField (effBody body) "messages" with
  | undefined => simp [truthy, isArray]
  | null => simp [truthy, isArray]
  | bool b => simp [truthy, isArray]
  | num n => simp [truthy, isArray]
  | str s => simp [truthy, isArray]
  | arr xs => simp [truthy, isArray]
  | obj fields => simp [truthy, isArray]

/-- C7: prompt-mode validation of src/server.js succeeds exactly when the
body has a non-empty string `prompt` field, in which case the upstream is
called with exactly the two synthesized messages [system persona preamble,
user prompt] in that order; any body without a non-empty string prompt gets
the 400 ValidationError "Missing \x27prompt\x27 string in body" and the upstream is
not contacted. -/
theorem c7_prompt_validation (body : JSValue) :
    (∀ s : String, s ≠ "" → getField body "prompt" = .str s →
        generatePromptMode true body =
          .upstreamCall [⟨"system", personaPreamble⟩, ⟨"user", s⟩]) ∧
    ((¬ ∃ s : String, s ≠ "" ∧ getField body "prompt" = .str s) →
        generatePromptMode true body =
          .validationError 400 "Missing \x27prompt\x27 string in body") := by
  constructor
  · intro s hs hfield
    have hep : extractPrompt body = .str s := (extractPrompt_eq_str body s hs).mpr hfield
    rw [generatePromptMode_true, hep]
    simp [hs]
  · intro hno
    rw [generatePromptMode_true]
    cases hep : extractPrompt body with
    | str s =>
      by_cases hs : s = ""
      · simp [hs]
      · exact absurd ⟨s, hs, (extractPrompt_eq_str body s hs).mp hep⟩ hno
    | undefined => rfl
    | null => rfl
    | bool b => rfl
    | num n => rfl
    | arr xs => rfl
    | obj fields => rfl

/-- C7 witness: the body with prompt "hello" validates and synthesizes the
two messages, system persona first, user prompt second. -/
theorem c7_prompt_validation_witness :
    generatePromptMode true (.obj [("prompt", .str "hello")]) =
      .upstreamCall [⟨"system", personaPreamble⟩, ⟨"user", "hello"⟩] :=
  (c7_prompt_validation (.obj [("prompt", .str "hello")])).1 "hello" (by decide) rfl

/-- C8 counterexample: the claim says both reply extractions substitute the
placeholder whenever the first choice content is absent OR EMPTY, so an
empty reply is never propagated. The src/unnamed/part_000 extraction uses
`?? "(No content returned from model)"`, which substitutes only for null or
undefined: a completion whose first choice content is the empty string
yields the empty reply, not the placeholder. -/
theorem c8_counterexample :
    replyPart000 (some ⟨[⟨⟨some ""⟩⟩]⟩) = "" ∧ placeholderReply ≠ "" :=
  ⟨rfl, by decide⟩

/-- C8 amended: the src/server.js extraction (which tests the trimmed content
with `||`) never returns an empty reply — absent, empty and whitespace-only
contents all become the placeholder; the src/unnamed/part_000 extraction
returns the first choice content verbatim whenever it is present (so an
empty string content is propagated) and substitutes the placeholder only
when the content is absent. -/
theorem c8_reply_extraction :
    (∀ completion : Completion, replyServerJs completion ≠ "") ∧
    (∀ (completion : Completion) (s : String),
        firstContent completion = some s → replyPart000 (some completion) = s) ∧
    (∀ completion : Completion,
        firstContent completion = none → replyPart000 (some completion) = placeholderReply) := by
  refine ⟨?_, ?_, ?_⟩
  · intro completion
    obtain ⟨choices⟩ := completion
    cases choices with
    | nil => decide
    | cons ch rest =>
      obtain ⟨⟨content⟩⟩ := ch
      cases content with
      | none =>
        show placeholderReply ≠ ""
        decide
      | some s =>
        show (if jsTrim s = "" then placeholderReply else jsTrim s) ≠ ""
        by_cases h : jsTrim s = ""
        · rw [if_pos h]; decide
        · rw [if_neg h]; exact h
  · intro completion s h
    obtain ⟨choices⟩ := completion
    cases choices with
    | nil => simp [firstContent] at h
    | cons ch rest =>
      obtain ⟨⟨content⟩⟩ := ch
      cases content with
      | none => simp [firstContent] at h
      | some t =>
        have ht : t = s := by simpa [firstContent] using h
        subst ht
        rfl
  · intro completion h
    obtain ⟨choices⟩ := completion
    cases choices with
    | nil => rfl
    | cons ch rest =>
      obtain ⟨⟨content⟩⟩ := ch
      cases content with
      | none => rfl
      | some t => simp [firstContent] at h

/-- C8 amended witness: the three parts applied at concrete completions — a
whitespace-padded content through the server.js extraction, a present
content and an absent content through the part_000 extraction. -/
theorem c8_reply_extraction_witness :
    replyServerJs ⟨[⟨⟨some " hi "⟩⟩]⟩ ≠ "" ∧
    replyPart000 (some ⟨[⟨⟨some "hi"⟩⟩]⟩) = "hi" ∧
    replyPart000 (some ⟨[]⟩) = placeholderReply :=
  ⟨c8_reply_extraction.1 ⟨[⟨⟨some " hi "⟩⟩]⟩,
   c8_reply_extraction.2.1 ⟨[⟨⟨some "hi"⟩⟩]⟩ "hi" rfl,
   c8_reply_extraction.2.2 ⟨[]⟩ rfl⟩

/-- C2: when the upstream yields a finite sequence of non-empty deltas and
ends normally, the /chat-stream session writes one Data frame per delta in
arrival order, then exactly one terminal Done frame (whose wire text is
"data: [DONE]" followed by the double newline), writes nothing after Done
(Done is the last frame and occurs once), the heartbeat interval is no
longer registered when the handler finishes, and the connection is closed. -/
theorem c2_stream_normal_completion (deltas : List String) (h : ∀ d ∈ deltas, d ≠ "") :
    (chatStreamBody (deltas.map mkDeltaChunk) .normal).frames =
        deltas.map Frame.data ++ [Frame.done] ∧
    countDone (chatStreamBody (deltas.map mkDeltaChunk) .normal).frames = 1 ∧
    (chatStreamBody (deltas.map mkDeltaChunk) .normal).frames.getLast? = some Frame.done ∧
    (chatStreamBody (deltas.map mkDeltaChunk) .normal).heartbeatActive = false ∧
    (chatStreamBody (deltas.map mkDeltaChunk) .normal).connectionEnded = true ∧
    frameText Frame.done = "data: [DONE]\n\n" := by
  have hf : (chatStreamBody (deltas.map mkDeltaChunk) .normal).frames =
      deltas.map Frame.data ++ [Frame.done] := by
    simp [chatStreamBody, dataFramesFor_map_of_nonempty deltas h]
  refine ⟨hf, ?_, ?_, rfl, rfl, rfl⟩
  · rw [hf, countDone_append, countDone_map_data]
    rfl
  · rw [hf]
    simp

/-- C2 witness: the theorem at the concrete upstream deltas ["Hel", "lo"]:
the session writes Data "Hel", Data "lo", then Done, with the heartbeat
cleared and the connection closed. -/
theorem c2_stream_normal_completion_witness :
    (chatStreamBody (["Hel", "lo"].map mkDeltaChunk) .normal).frames =
        ["Hel", "lo"].map Frame.data ++ [Frame.done] ∧
    countDone (chatStreamBody (["Hel", "lo"].map mkDeltaChunk) .normal).frames = 1 ∧
    (chatStreamBody (["Hel", "lo"].map mkDeltaChunk) .normal).frames.getLast? =
        some Frame.done ∧
    (chatStreamBody (["Hel", "lo"].map mkDeltaChunk) .normal).heartbeatActive = false ∧
    (chatStreamBody (["Hel", "lo"].map mkDeltaChunk) .normal).connectionEnded = true ∧
    frameText Frame.done = "data: [DONE]\n\n" :=
  c2_stream_normal_completion ["Hel", "lo"] (by decide)

/-- C3: when the upstream yields at least one non-empty delta and then raises
a mid-stream failure, the session writes the Data frames for the deltas
already received followed by exactly one Error frame carrying the failure
message (or the fallback text when the error has no message), writes no Done
frame, at least one Data frame was written, and the connection is closed.
Moreover, on EVERY session (any chunks, either ending) the frame sequence
contains exactly one terminal marker (Done or Error) and ends with it. -/
theorem c3_stream_midstream_failure (deltas : List String) (message : Option String)
    (h1 : deltas ≠ []) (h2 : ∀ d ∈ deltas, d ≠ "") :
    (chatStreamBody (deltas.map mkDeltaChunk) (.failure message)).frames =
        deltas.map Frame.data ++ [Frame.error (message.getD "OpenAI stream error")] ∧
    countDone (chatStreamBody (deltas.map mkDeltaChunk) (.failure message)).frames = 0 ∧
    countError (chatStreamBody (deltas.map mkDeltaChunk) (.failure message)).frames = 1 ∧
    dataPayloads (chatStreamBody (deltas.map mkDeltaChunk) (.failure message)).frames ≠ [] ∧
    (chatStreamBody (deltas.map mkDeltaChunk) (.failure message)).connectionEnded = true ∧
    (∀ (chunks : List Chunk) (ending : StreamEnd),
        countDone (chatStreamBody chunks ending).frames +
            countError (chatStreamBody chunks ending).frames = 1 ∧
        ∃ t, (chatStreamBody chunks ending).frames.getLast? = some t ∧
          isTerminalFrame t = true) := by
  have hf : (chatStreamBody (deltas.map mkDeltaChunk) (.failure message)).frames =
      deltas.map Frame.data ++ [Frame.error (message.getD "OpenAI stream error")] := by
    simp [chatStreamBody, dataFramesFor_map_of_nonempty deltas h2]
  refine ⟨hf, ?_, ?_, ?_, rfl, ?_⟩
  · rw [hf, countDone_append, countDone_map_data]
    rfl
  · rw [hf, countError_append, countError_map_data]
    rfl
  · rw [hf, dataPayloads_append, dataPayloads_map_data]
    simp [dataPayloads, h1]
  · intro chunks ending
    cases ending with
    | normal =>
      constructor
      · show countDone (dataFramesFor chunks ++ [Frame.done]) +
            countError (dataFramesFor chunks ++ [Frame.done]) = 1
        rw [countDone_append, countError_append, countDone_dataFramesFor,
          countError_dataFramesFor]
        rfl
      · exact ⟨Frame.done, by simp [chatStreamBody], rfl⟩
    | failure m =>
      constructor
      · show countDone (dataFramesFor chunks ++ [Frame.error (m.getD "OpenAI stream error")]) +
            countError (dataFramesFor chunks ++ [Frame.error (m.getD "OpenAI stream error")]) = 1
        rw [countDone_append, countError_append, countDone_dataFramesFor,
          countError_dataFramesFor]
        rfl
      · exact ⟨Frame.error (m.getD "OpenAI stream error"), by simp [chatStreamBody], rfl⟩

/-- C3 witness: the theorem at the concrete scenario of the spec test — one
delta "Hel", then a failure with message "boom": exactly one Data frame, one
Error frame carrying "boom", no Done frame. -/
theorem c3_stream_midstream_failure_witness :
    (chatStreamBody (["Hel"].map mkDeltaChunk) (.failure (some "boom"))).frames =
        ["Hel"].map Frame.data ++ [Frame.error ((some "boom").getD "OpenAI stream error")] ∧
    countDone (chatStreamBody (["Hel"].map mkDeltaChunk) (.failure (some "boom"))).frames = 0 ∧
    countError (chatStreamBody (["Hel"].map mkDeltaChunk) (.failure (some "boom"))).frames = 1 ∧
    dataPayloads
        (chatStreamBody (["Hel"].map mkDeltaChunk) (.failure (some "boom"))).frames ≠ [] ∧
    (chatStreamBody (["Hel"].map mkDeltaChunk) (.failure (some "boom"))).connectionEnded = true ∧
    (∀ (chunks : List Chunk) (ending : StreamEnd),
        countDone (chatStreamBody chunks ending).frames +
            countError (chatStreamBody chunks ending).frames = 1 ∧
        ∃ t, (chatStreamBody chunks ending).frames.getLast? = some t ∧
          isTerminalFrame t = true) :=
  c3_stream_midstream_failure ["Hel"] (some "boom") (by decide) (by decide)

/-- C10: on every session (any chunk list, either ending) a Data frame is
written exactly for the chunks whose extracted delta is a non-empty string —
the emitted payload sequence equals the present deltas filtered to the
non-empty ones, in order — and the concatenation of the emitted payloads
equals the concatenation of all present upstream deltas (dropping empty
strings changes nothing). -/
theorem c10_delta_filtering (chunks : List Chunk) (ending : StreamEnd) :
    dataPayloads (chatStreamBody chunks ending).frames =
        (chunks.filterMap chunkDelta).filter (fun d => d ≠ "") ∧
    concatAll (dataPayloads (chatStreamBody chunks ending).frames) =
        concatAll (chunks.filterMap chunkDelta) := by
  have hp : dataPayloads (chatStreamBody chunks ending).frames =
      (chunks.filterMap chunkDelta).filter (fun d => d ≠ "") := by
    cases ending with
    | normal =>
      show dataPayloads (dataFramesFor chunks ++ [Frame.done]) = _
      rw [dataPayloads_append, dataPayloads_dataFramesFor]
      simp [dataPayloads]
    | failure m =>
      show dataPayloads (dataFramesFor chunks ++ [Frame.error (m.getD "OpenAI stream error")]) = _
      rw [dataPayloads_append, dataPayloads_dataFramesFor]
      simp [dataPayloads]
  exact ⟨hp, by rw [hp, concatAll_filter_ne_empty]⟩

end ZendeskGateway
